import Mathlib

/-!
Shallow embedding of the design-pattern examples of this repository:
the Strategy example (unnamed file: `Context`, `ConcreteStrategyA/B`,
`Item`, payment strategies), the Command example
(`src/patterns/behavioral/command.ts`: `Invoker`, `SimpleCommand`,
`ComplexCommand`, `Receiver`, `OrderManager` and the order commands) and
the Abstract Factory example (`src/patterns/creational/abstractFactory.ts`).

Console output is modelled as a `List String` of the printed lines, in
order.  JavaScript in-place array mutation is modelled by returning, next
to a function's result, the post-call contents of the array the caller
passed in (`Array.prototype.sort` and `Array.prototype.reverse` mutate the
receiver and return it; `Array.prototype.filter` allocates a fresh array;
assigning to a parameter rebinds only the local variable).  A thrown
JavaScript `TypeError` is modelled by the `JSError` type, and a run that
may throw returns the lines printed before the throw together with the
error, since printed output survives an exception.
-/

/-- The strategies of the abstract Strategy example.  The source has an
interface `Strategy` with exactly the two implementers
`ConcreteStrategyA` (ascending sort) and `ConcreteStrategyB` (reverse). -/
inductive Strategy
  | concreteStrategyA
  | concreteStrategyB
deriving DecidableEq, Repr

/-- Strict lexicographic comparison of character sequences by code unit,
as JavaScript compares strings (`<` on the code units, shorter prefix
first). -/
def charListLt : List Char → List Char → Bool
  | _, [] => false
  | [], _ :: _ => true
  | a :: as, b :: bs =>
    if a.toNat < b.toNat then true
    else if b.toNat < a.toNat then false
    else charListLt as bs

/-- The ordering the JavaScript default sort comparator induces on
strings: `a` comes no later than `b` when `b` is not strictly below `a`. -/
def jsStringLe (a b : String) : Bool :=
  ! charListLt b.data a.data

/-- `Array.prototype.sort()` with the default comparator: a stable sort
of the strings under `jsStringLe`. -/
def jsSortStrings (data : List String) : List String :=
  List.insertionSort (fun a b => jsStringLe a b = true) data

/-- `ConcreteStrategyA.doAlgorithm(data) { return data.sort(); }`.
JavaScript `Array.prototype.sort()` with the default comparator sorts the
receiver in place (stably, by string comparison) and returns the receiver
itself, so the result and the caller's array afterwards are the same
sorted sequence.  The first component is the returned sequence, the second
the caller's array contents after the call. -/
def ConcreteStrategyA.doAlgorithm (data : List String) : List String × List String :=
  let sorted := jsSortStrings data
  (sorted, sorted)

/-- `ConcreteStrategyB.doAlgorithm(data) { return data.reverse(); }`.
JavaScript `Array.prototype.reverse()` reverses the receiver in place and
returns the receiver itself. -/
def ConcreteStrategyB.doAlgorithm (data : List String) : List String × List String :=
  let reversed := data.reverse
  (reversed, reversed)

/-- Dispatch of `strategy.doAlgorithm(data)` to the bound implementer. -/
def Strategy.doAlgorithm : Strategy → List String → List String × List String
  | .concreteStrategyA, data => ConcreteStrategyA.doAlgorithm data
  | .concreteStrategyB, data => ConcreteStrategyB.doAlgorithm data

/-- The `Context` of the Strategy example: it holds exactly one strategy
reference, assigned in the constructor (`constructor(strategy: Strategy)`),
and the field type is non-optional. -/
structure Context where
  strategy : Strategy
deriving DecidableEq, Repr

/-- `Context.setStrategy` replaces the bound strategy. -/
def Context.setStrategy (c : Context) (strategy : Strategy) : Context :=
  { c with strategy := strategy }

/-- The narration line `doSomeBusinessLogic` prints before delegating. -/
def contextNarrationLine : String :=
  "Context: Sorting data using the strategy (not sure how it'll do it)"

/-- `Context.doSomeBusinessLogic()`: prints the narration line, calls
`this.strategy.doAlgorithm(["a","b","c","d","e"])` on a fresh array
literal, and prints `result.join(",")`.  Returns the printed lines. -/
def Context.doSomeBusinessLogic (c : Context) : List String :=
  let result := (c.strategy.doAlgorithm ["a", "b", "c", "d", "e"]).1
  [contextNarrationLine, String.intercalate "," result]

/-! ### The concrete Strategy example: payment strategies and `Item` -/

/-- The payment strategies of the concrete Strategy example. -/
inductive PaymentStrategy
  | creditCardStrategy
  | payPalStrategy
deriving DecidableEq, Repr

/-- `pay(amount)` of each concrete payment strategy: prints one line. -/
def PaymentStrategy.pay : PaymentStrategy → Nat → List String
  | .creditCardStrategy, amount => ["Paid " ++ toString amount ++ " using credit card."]
  | .payPalStrategy, amount => ["Paid " ++ toString amount ++ " using PayPal."]

/-- The `Item` context: holds a price and exactly one payment strategy,
both assigned in the constructor; the strategy field is non-optional. -/
structure Item where
  price : Nat
  paymentStrategy : PaymentStrategy
deriving DecidableEq, Repr

/-- `Item.buy()` delegates to the held strategy with the held price. -/
def Item.buy (item : Item) : List String :=
  item.paymentStrategy.pay item.price

/-! ### The abstract Command example: `Invoker`, commands, `Receiver` -/

/-- `Receiver.doSomething(a)`: prints one line. -/
def Receiver.doSomething (a : String) : String :=
  "Receiver: Working on (" ++ a ++ ".)"

/-- `Receiver.doSomethingElse(b)`: prints one line. -/
def Receiver.doSomethingElse (b : String) : String :=
  "Receiver: Also working on (" ++ b ++ ".)"

/-- The commands of the abstract Command example: `SimpleCommand` holds a
payload string; `ComplexCommand` holds a (stateless) receiver and the two
context strings `a` and `b`. -/
inductive InvokerCommand
  | simpleCommand (payload : String)
  | complexCommand (a : String) (b : String)
deriving DecidableEq, Repr

/-- `execute()` of each command: the lines it prints. -/
def InvokerCommand.execute : InvokerCommand → List String
  | .simpleCommand payload =>
    ["SimpleCommand: See, I can do simple things like printing (" ++ payload ++ ")"]
  | .complexCommand a b =>
    ["ComplexCommand: Complex stuff should be done by a receiver object.",
     Receiver.doSomething a, Receiver.doSomethingElse b]

/-- A thrown JavaScript error.  Dereferencing a member of `undefined`
throws a `TypeError`. -/
inductive JSError
  | typeError (message : String)
deriving DecidableEq, Repr

/-- The `Invoker`: its two command fields are declared but not assigned by
any constructor, so right after `new Invoker()` both are `undefined`,
modelled as `none`. -/
structure Invoker where
  onStart : Option InvokerCommand := none
  onFinish : Option InvokerCommand := none
deriving DecidableEq, Repr

/-- `new Invoker()`: both command slots start unassigned. -/
def Invoker.new : Invoker := {}

/-- `Invoker.setOnStart(command)`. -/
def Invoker.setOnStart (inv : Invoker) (command : InvokerCommand) : Invoker :=
  { inv with onStart := some command }

/-- `Invoker.setOnFinish(command)`. -/
def Invoker.setOnFinish (inv : Invoker) (command : InvokerCommand) : Invoker :=
  { inv with onFinish := some command }

/-- `isCommand(object) { return object.execute !== undefined; }`: a
duck-type check.  Reading `.execute` off `undefined` (an unassigned slot)
throws a `TypeError`; on an actual command object the member exists, so
the check returns `true`. -/
def Invoker.isCommand : Option InvokerCommand → Except JSError Bool
  | none => .error (.typeError "Cannot read properties of undefined (reading execute)")
  | some _ => .ok true

/-- The outcome of a run that prints and may throw: the lines printed
before the run ended, and the error that ended it, if any.  Printed
output survives a thrown error. -/
structure RunResult where
  output : List String
  error : Option JSError
deriving DecidableEq, Repr

/-- `Invoker.doSomethingImportant()`, line by line: print the first
narration line; duck-type-check `onStart` and run it if the check passes
(the check throws if the slot is unassigned); print the middle narration
line; print the third narration line; duck-type-check `onFinish` and run
it likewise. -/
def Invoker.doSomethingImportant (inv : Invoker) : RunResult :=
  let beforeLine := "Invoker: Does anybody want something done before I begin?"
  let duringLine := "Invoker: ...doing something really important..."
  let afterLine := "Invoker: Does anybody want something done after I finish?"
  match Invoker.isCommand inv.onStart with
  | .error e => ⟨[beforeLine], some e⟩
  | .ok check1 =>
    let startOut := if check1 then
        (match inv.onStart with | some c => c.execute | none => []) else []
    match Invoker.isCommand inv.onFinish with
    | .error e => ⟨[beforeLine] ++ startOut ++ [duringLine, afterLine], some e⟩
    | .ok check2 =>
      let finishOut := if check2 then
          (match inv.onFinish with | some c => c.execute | none => []) else []
      ⟨[beforeLine] ++ startOut ++ [duringLine, afterLine] ++ finishOut, none⟩

/-! ### The concrete Command example: `OrderManager` and order commands -/

/-- An element of the manager's orders array: `{ id: string }`. -/
structure Order where
  id : String
deriving DecidableEq, Repr

/-- The three order commands.  `PlaceOrderCommand` holds the order name
and an id; `CancelOrderCommand` and `TrackOrderCommand` hold an id. -/
inductive OrderCommand
  | placeOrderCommand (order : String) (id : String)
  | cancelOrderCommand (id : String)
  | trackOrderCommand (id : String)
deriving DecidableEq, Repr

/-- What one `command.execute(orders)` call leaves behind.  The manager
passes its `orders` array by reference; `localParam` is the final value of
the callee's `orders` parameter binding, `callerArray` the contents of the
array object the caller passed (what the manager still sees afterwards),
and `output` the printed lines. -/
structure ExecEffect where
  localParam : List Order
  callerArray : List Order
  output : List String
deriving DecidableEq, Repr

/-- `execute` of each order command, on the caller's `orders` array:
`PlaceOrderCommand` does `orders.push({id})` (in-place, so the caller sees
the appended element) and prints a confirmation;
`CancelOrderCommand` does `orders = orders.filter(order => order.id !== this.id)`,
which allocates a fresh filtered array and rebinds only the local
parameter — the caller's array object is untouched — then prints the
cancellation message; `TrackOrderCommand` declares no parameter, reads
nothing, and prints the tracking message. -/
def OrderCommand.execute : OrderCommand → List Order → ExecEffect
  | .placeOrderCommand order id, orders =>
    let pushed := orders ++ [⟨id⟩]
    ⟨pushed, pushed, ["You have successfully ordered " ++ order ++ " (" ++ id ++ ")"]⟩
  | .cancelOrderCommand id, orders =>
    let rebound := orders.filter (fun o => o.id ≠ id)
    ⟨rebound, orders, ["You have canceled your order " ++ id]⟩
  | .trackOrderCommand id, orders =>
    ⟨orders, orders, ["Your order " ++ id ++ " will arrive in 20 minutes."]⟩

/-- `OrderManager`: holds only the orders array, initialised to `[]`.  It
holds no command; each command is an argument of `execute`. -/
structure OrderManager where
  orders : List Order := []
deriving DecidableEq, Repr

/-- `new OrderManager()`. -/
def OrderManager.new : OrderManager := {}

/-- `OrderManager.execute(command)` forwards `this.orders` to the command;
afterwards the manager's field still refers to the same array object,
whose contents are `callerArray`. -/
def OrderManager.execute (m : OrderManager) (command : OrderCommand) :
    OrderManager × List String :=
  let effect := command.execute m.orders
  ({ m with orders := effect.callerArray }, effect.output)

/-- The driver of the concrete Command example: place, track, cancel for
id 1234, in that order, through one manager, each call running to
completion before the next starts.  Returns all printed lines in order. -/
def commandConcreteExample : List String :=
  let step1 := OrderManager.new.execute (.placeOrderCommand "Pad Thai" "1234")
  let step2 := step1.1.execute (.trackOrderCommand "1234")
  let step3 := step2.1.execute (.cancelOrderCommand "1234")
  step1.2 ++ step2.2 ++ step3.2

/-! ### The Abstract Factory example -/

/-- The two product-A variants. -/
inductive AbstractProductA
  | concreteProductA1
  | concreteProductA2
deriving DecidableEq, Repr

/-- The two product-B variants. -/
inductive AbstractProductB
  | concreteProductB1
  | concreteProductB2
deriving DecidableEq, Repr

/-- The two concrete factories. -/
inductive AbstractFactory
  | concreteFactory1
  | concreteFactory2
deriving DecidableEq, Repr

/-- The variant a factory or product belongs to. -/
inductive Variant
  | v1
  | v2
deriving DecidableEq, Repr

/-- The variant of a factory. -/
def AbstractFactory.variant : AbstractFactory → Variant
  | .concreteFactory1 => .v1
  | .concreteFactory2 => .v2

/-- The variant of a product A. -/
def AbstractProductA.variant : AbstractProductA → Variant
  | .concreteProductA1 => .v1
  | .concreteProductA2 => .v2

/-- The variant of a product B. -/
def AbstractProductB.variant : AbstractProductB → Variant
  | .concreteProductB1 => .v1
  | .concreteProductB2 => .v2

/-- `createProductA()` of each concrete factory. -/
def AbstractFactory.createProductA : AbstractFactory → AbstractProductA
  | .concreteFactory1 => .concreteProductA1
  | .concreteFactory2 => .concreteProductA2

/-- `createProductB()` of each concrete factory. -/
def AbstractFactory.createProductB : AbstractFactory → AbstractProductB
  | .concreteFactory1 => .concreteProductB1
  | .concreteFactory2 => .concreteProductB2

/-- `usefulFunctionA()` of each concrete product A. -/
def AbstractProductA.usefulFunctionA : AbstractProductA → String
  | .concreteProductA1 => "The result of the product A1."
  | .concreteProductA2 => "The result of the product A2."

/-- `usefulFunctionB()` of each concrete product B. -/
def AbstractProductB.usefulFunctionB : AbstractProductB → String
  | .concreteProductB1 => "The result of the product B1."
  | .concreteProductB2 => "The result of the product B2."

/-- `anotherUsefulFunctionB(collaborator)` of each concrete product B:
asks the collaborator for its result and wraps it in the B-variant
collaboration text. -/
def AbstractProductB.anotherUsefulFunctionB :
    AbstractProductB → AbstractProductA → String
  | .concreteProductB1, collaborator =>
    "The result of the B1 collaborating with the (" ++ collaborator.usefulFunctionA ++ ")"
  | .concreteProductB2, collaborator =>
    "The result of the B2 collaborating with the (" ++ collaborator.usefulFunctionA ++ ")"

/-- `clientCode(factory)`: creates one product A and one product B from
the factory and prints product B's own result, then the collaboration
result. -/
def clientCode (factory : AbstractFactory) : List String :=
  let productA := factory.createProductA
  let productB := factory.createProductB
  [productB.usefulFunctionB, productB.anotherUsefulFunctionB productA]

/-! ## Theorems for the claims -/

/-- C1, counterexample.  The claim says neither strategy mutates the
array it was given.  In fact both operate in place: after
`ConcreteStrategyB.doAlgorithm(["a","b","c","d","e"])` the caller's array
holds `["e","d","c","b","a"]`, and after
`ConcreteStrategyA.doAlgorithm(["b","a"])` the caller's array holds
`["a","b"]`, so at these concrete inputs the retained original array does
not keep its contents. -/
theorem strategy_doAlgorithm_mutates_counterexample :
    (ConcreteStrategyB.doAlgorithm ["a", "b", "c", "d", "e"]).2
        ≠ ["a", "b", "c", "d", "e"]
    ∧ (ConcreteStrategyA.doAlgorithm ["b", "a"]).2 ≠ ["b", "a"] := by
  decide

/-- C1, amended.  Both strategies work in place and return the very array
they were given: the returned sequence equals the caller's array contents
after the call; after `ConcreteStrategyA.doAlgorithm` the caller's array
holds a permutation of the original elements (the sorted arrangement),
and after `ConcreteStrategyB.doAlgorithm` it holds the original elements
in reversed order. -/
theorem strategy_doAlgorithm_in_place (data : List String) :
    (ConcreteStrategyA.doAlgorithm data).1 = (ConcreteStrategyA.doAlgorithm data).2
    ∧ List.Perm (ConcreteStrategyA.doAlgorithm data).2 data
    ∧ (ConcreteStrategyB.doAlgorithm data).1 = (ConcreteStrategyB.doAlgorithm data).2
    ∧ (ConcreteStrategyB.doAlgorithm data).2 = data.reverse :=
  ⟨rfl, List.perm_insertionSort _ data, rfl, rfl⟩

/-- C1, witness for the amended theorem at `["b","a"]`. -/
theorem strategy_doAlgorithm_in_place_witness :
    (ConcreteStrategyA.doAlgorithm ["b", "a"]).1
        = (ConcreteStrategyA.doAlgorithm ["b", "a"]).2
    ∧ List.Perm (ConcreteStrategyA.doAlgorithm ["b", "a"]).2 ["b", "a"]
    ∧ (ConcreteStrategyB.doAlgorithm ["b", "a"]).1
        = (ConcreteStrategyB.doAlgorithm ["b", "a"]).2
    ∧ (ConcreteStrategyB.doAlgorithm ["b", "a"]).2 = ["b", "a"].reverse :=
  strategy_doAlgorithm_in_place ["b", "a"]

/-- C2.  Executing `CancelOrderCommand(id)` through `OrderManager.execute`
leaves the manager's orders list unchanged: the command computes the
filtered list but only rebinds its local parameter, so an order placed
with that id beforehand is still present afterwards, while the
cancellation message is nevertheless printed. -/
theorem cancelOrderCommand_is_noop_on_orders (m : OrderManager) (ord id : String) :
    ((m.execute (.placeOrderCommand ord id)).1.execute (.cancelOrderCommand id)).1.orders
        = (m.execute (.placeOrderCommand ord id)).1.orders
    ∧ Order.mk id
        ∈ ((m.execute (.placeOrderCommand ord id)).1.execute
            (.cancelOrderCommand id)).1.orders
    ∧ ((m.execute (.placeOrderCommand ord id)).1.execute (.cancelOrderCommand id)).2
        = ["You have canceled your order " ++ id] :=
  ⟨rfl,
   show Order.mk id ∈ m.orders ++ [Order.mk id] from
     List.mem_append_right m.orders (List.mem_singleton_self (Order.mk id)),
   rfl⟩

/-- C3.  On an `Invoker` on which neither `setOnStart` nor `setOnFinish`
was ever called, `doSomethingImportant()` throws a `TypeError` at the very
first duck-type check (reading `.execute` off the `undefined` slot): the
run ends in an error, no command output and not even the
`...doing something really important...` line is produced, and no default
or null result is returned. -/
theorem unbound_invoker_fails_loudly :
    Invoker.new.doSomethingImportant
      = ⟨["Invoker: Does anybody want something done before I begin?"],
         some (.typeError "Cannot read properties of undefined (reading execute)")⟩ :=
  rfl

/-- C4, counterexample.  The claim says every composer's implementation
reference is never unbound after construction; but `new Invoker()`
finishes construction with both of its two command slots unassigned
(`undefined`), and it holds two slots, not exactly one. -/
theorem invoker_unbound_after_construction :
    ¬ (Invoker.new.onStart ≠ none ∧ Invoker.new.onFinish ≠ none) := by
  decide

/-- C4, amended.  `Context` and `Item` each hold exactly one
implementation reference, assigned by the constructor and never optional
afterwards, and rebinding fully replaces it; `Invoker` instead holds two
command slots that are unbound right after construction and only become
bound through the setters; `OrderManager` holds no implementation
reference at all, only an orders list initialised empty (commands are
passed to `execute` per call). -/
theorem composer_binding_state :
    (∀ s : Strategy, (Context.mk s).strategy = s)
    ∧ (∀ (c : Context) (s : Strategy), (c.setStrategy s).strategy = s)
    ∧ (∀ (p : Nat) (ps : PaymentStrategy), (Item.mk p ps).paymentStrategy = ps)
    ∧ Invoker.new.onStart = none
    ∧ Invoker.new.onFinish = none
    ∧ (∀ (i : Invoker) (c : InvokerCommand), (i.setOnStart c).onStart = some c)
    ∧ (∀ (i : Invoker) (c : InvokerCommand), (i.setOnFinish c).onFinish = some c)
    ∧ OrderManager.new.orders = [] :=
  ⟨fun _ => rfl, fun _ _ => rfl, fun _ _ => rfl, rfl, rfl,
   fun _ _ => rfl, fun _ _ => rfl, rfl⟩

/-- C5.  On the fixed input `["a","b","c","d","e"]` the ascending-sort
strategy returns the same sequence and the reverse strategy returns
`["e","d","c","b","a"]`, so `doSomeBusinessLogic` prints `a,b,c,d,e`
under `ConcreteStrategyA` and `e,d,c,b,a` under `ConcreteStrategyB`. -/
theorem context_doSomeBusinessLogic_fixed_input :
    (ConcreteStrategyA.doAlgorithm ["a", "b", "c", "d", "e"]).1
        = ["a", "b", "c", "d", "e"]
    ∧ (ConcreteStrategyB.doAlgorithm ["a", "b", "c", "d", "e"]).1
        = ["e", "d", "c", "b", "a"]
    ∧ (Context.mk .concreteStrategyA).doSomeBusinessLogic
        = [contextNarrationLine, "a,b,c,d,e"]
    ∧ (Context.mk .concreteStrategyB).doSomeBusinessLogic
        = [contextNarrationLine, "e,d,c,b,a"] := by
  decide

/-- C6.  After a `Context` constructed with strategy `a` is rebound with
`setStrategy(b)`, a `doSomeBusinessLogic` call behaves exactly as on a
context that only ever held `b`: the previous strategy leaves no trace in
the context's state or its output. -/
theorem context_rebind_reflects_new_strategy_only (a b : Strategy) :
    (Context.mk a).setStrategy b = Context.mk b
    ∧ ((Context.mk a).setStrategy b).doSomeBusinessLogic
        = (Context.mk b).doSomeBusinessLogic :=
  ⟨rfl, rfl⟩

/-- C7.  Both products created by one concrete factory are of that
factory's variant, and the collaboration string reports only that
variant: under `ConcreteFactory1` it speaks of B1 and A1, under
`ConcreteFactory2` of B2 and A2, never a mix. -/
theorem factory_products_share_variant (factory : AbstractFactory) :
    factory.createProductA.variant = factory.variant
    ∧ factory.createProductB.variant = factory.variant
    ∧ factory.createProductB.anotherUsefulFunctionB factory.createProductA
        = (match factory.variant with
           | .v1 => "The result of the B1 collaborating with the (The result of the product A1.)"
           | .v2 => "The result of the B2 collaborating with the (The result of the product A2.)")
    ∧ clientCode .concreteFactory1
        = ["The result of the product B1.",
           "The result of the B1 collaborating with the (The result of the product A1.)"]
    ∧ clientCode .concreteFactory2
        = ["The result of the product B2.",
           "The result of the B2 collaborating with the (The result of the product A2.)"] := by
  cases factory <;> exact ⟨rfl, rfl, rfl, rfl, rfl⟩

/-- C8.  The driver that issues place, track, cancel for id 1234 in that
order through one `OrderManager` produces exactly the three messages in
the order issued; in this sequential model each command's whole effect is
appended before the next command runs, so nothing interleaves. -/
theorem command_driver_messages_in_issue_order :
    commandConcreteExample
      = ["You have successfully ordered Pad Thai (1234)",
         "Your order 1234 will arrive in 20 minutes.",
         "You have canceled your order 1234"]
    ∧ commandConcreteExample
      = (OrderManager.new.execute (.placeOrderCommand "Pad Thai" "1234")).2
        ++ ((OrderManager.new.execute (.placeOrderCommand "Pad Thai" "1234")).1.execute
              (.trackOrderCommand "1234")).2
        ++ (((OrderManager.new.execute (.placeOrderCommand "Pad Thai" "1234")).1.execute
              (.trackOrderCommand "1234")).1.execute (.cancelOrderCommand "1234")).2 := by
  exact ⟨by decide, rfl⟩

/-- C9.  `TrackOrderCommand(id)` prints exactly
`Your order <id> will arrive in 20 minutes.` whatever the orders list
holds: the output is the same on any two manager states, and the state is
left untouched — the command never reads or writes the orders. -/
theorem trackOrderCommand_output_independent_of_state
    (m₁ m₂ : OrderManager) (id : String) :
    (m₁.execute (.trackOrderCommand id)).2
        = ["Your order " ++ id ++ " will arrive in 20 minutes."]
    ∧ (m₁.execute (.trackOrderCommand id)).2 = (m₂.execute (.trackOrderCommand id)).2
    ∧ (m₁.execute (.trackOrderCommand id)).1 = m₁ :=
  ⟨rfl, rfl, rfl⟩

/-- C10.  With `onStart` bound to a command but `onFinish` never set,
`doSomethingImportant()` runs the start command and prints all narration
up to the final duck-type check, and only then throws the `TypeError`
from reading `.execute` off the `undefined` `onFinish`; the lines printed
before the failure remain in the output, so the operation is not atomic
on error. -/
theorem invoker_effects_before_onFinish_failure (c : InvokerCommand) :
    (Invoker.new.setOnStart c).doSomethingImportant
      = ⟨["Invoker: Does anybody want something done before I begin?"]
          ++ c.execute
          ++ ["Invoker: ...doing something really important...",
              "Invoker: Does anybody want something done after I finish?"],
         some (.typeError "Cannot read properties of undefined (reading execute)")⟩ :=
  rfl
